import Mathlib

/-!
Shallow embedding of the Flask application in `src/app.py` and the test in
`src/test_app.py`.

The repository code registers a single route `@app.route("/")` whose handler
`home` returns the literal string `"Hello World!"`, and, when run as a script,
starts the server with `app.run(host="0.0.0.0", port=5000)`.  Request
dispatch, response serialization and startup error behaviour live in the
Flask/Werkzeug framework, which is not part of the repository sources, so
those parts are modelled explicitly below from the specification's
description of the framework behaviour.
-/

/-- UTF-8 encoding of a single character (the standard four-range encoding). -/
def utf8Char (c : Char) : List Nat :=
  let n := c.toNat
  if n < 0x80 then [n]
  else if n < 0x800 then [0xC0 + n / 64, 0x80 + n % 64]
  else if n < 0x10000 then [0xE0 + n / 4096, 0x80 + (n / 64) % 64, 0x80 + n % 64]
  else [0xF0 + n / 262144, 0x80 + (n / 4096) % 64, 0x80 + (n / 64) % 64, 0x80 + n % 64]

/-- UTF-8 encoding of a string as a list of byte values. -/
def utf8 (s : String) : List Nat :=
  s.data.flatMap utf8Char

/-- An HTTP request as seen by the application: method, path, headers and body.
The headers and body fields are carried so that independence from them can be
stated; the handler never looks at them. -/
structure Request where
  method : String
  path : String
  headers : List (String × String)
  body : List Nat
deriving Repr, DecidableEq

/-- An HTTP response: status code, body bytes and content type. -/
structure Response where
  status : Nat
  body : List Nat
  contentType : String
deriving Repr, DecidableEq

/-- The root handler `home` from `src/app.py` lines 11-13: it takes no
arguments and returns the literal string `"Hello World!"`. -/
def home : Unit → String :=
  fun _ => "Hello World!"

/-- A registered route: a URL rule together with the HTTP methods it serves. -/
structure Route where
  rule : String
  methods : List String
deriving Repr, DecidableEq

/-- Modelled from the spec: the framework route table built by
`@app.route("/")` in `src/app.py`.  Flask registers the rule for `GET` when no
explicit method list is given, and the framework implicitly adds `HEAD` and an
automatic `OPTIONS` to the rule's method set; that registration code is not
under `src/`. -/
def registeredRoutes : List Route :=
  [{ rule := "/", methods := ["GET", "HEAD", "OPTIONS"] }]

/-- Modelled from the spec: Flask's default serialization of a string return
value into a response — status 200 and the default text/html content type. -/
def okResponse (b : String) : Response :=
  { status := 200, body := utf8 b, contentType := "text/html; charset=utf-8" }

/-- Modelled from the spec: the framework's 404 Not Found response for a path
matching no registered rule (the error page body is framework boilerplate and
is not modelled). -/
def notFoundResponse : Response :=
  { status := 404, body := [], contentType := "text/html; charset=utf-8" }

/-- Modelled from the spec: the framework's 405 Method Not Allowed response
for a known path with a method outside the rule's method set. -/
def methodNotAllowedResponse : Response :=
  { status := 405, body := [], contentType := "text/html; charset=utf-8" }

/-- Modelled from the spec: framework dispatch — exact string match of the
request path against the route table; a matching rule serves the methods in
its method set (`HEAD` and the automatic `OPTIONS` are answered by the
framework with status 200 and an empty body, `GET` invokes the handler
`home`); a known path with any other method yields 405; an unmatched path
yields 404. -/
def dispatch (req : Request) : Response :=
  match registeredRoutes.find? (fun r => r.rule == req.path) with
  | some r =>
    if req.method ∈ r.methods then
      if req.method = "OPTIONS" ∨ req.method = "HEAD" then
        { status := 200, body := [], contentType := "text/html; charset=utf-8" }
      else
        okResponse (home ())
    else
      methodNotAllowedResponse
  | none => notFoundResponse

/-- Any `GET /` request, whatever its headers and body, dispatches to the
serialization of the handler's return value. -/
lemma dispatch_get_root (hs : List (String × String)) (b : List Nat) :
    dispatch { method := "GET", path := "/", headers := hs, body := b } =
      okResponse "Hello World!" := rfl

/-- C1: for every request with method GET and path "/", the response status is
exactly 200 and the response body is exactly the UTF-8 bytes of
"Hello World!" — concretely the twelve bytes of the ASCII text, with no
surrounding whitespace and no trailing newline. -/
theorem get_root_response (req : Request)
    (hm : req.method = "GET") (hp : req.path = "/") :
    (dispatch req).status = 200 ∧
    (dispatch req).body = utf8 "Hello World!" ∧
    (dispatch req).body = [72, 101, 108, 108, 111, 32, 87, 111, 114, 108, 100, 33] := by
  obtain ⟨m, p, hs, b⟩ := req
  simp only at hm hp
  subst hm hp
  refine ⟨rfl, rfl, ?_⟩
  show utf8 "Hello World!" = _
  decide

/-- Witness for C1 at the concrete request of `test_home` in
`src/test_app.py`. -/
theorem get_root_response_witness :
    (dispatch { method := "GET", path := "/", headers := [], body := [] }).status = 200 ∧
    (dispatch { method := "GET", path := "/", headers := [], body := [] }).body =
      utf8 "Hello World!" ∧
    (dispatch { method := "GET", path := "/", headers := [], body := [] }).body =
      [72, 101, 108, 108, 111, 32, 87, 111, 114, 108, 100, 33] :=
  get_root_response { method := "GET", path := "/", headers := [], body := [] } rfl rfl

/-- C2: the response to `GET /` is deterministic and input-independent — any
two GET "/" requests, whatever their headers and bodies, receive byte-for-byte
identical responses; dispatch consults no clock, randomness or external
state. -/
theorem get_root_deterministic (r1 r2 : Request)
    (hm1 : r1.method = "GET") (hp1 : r1.path = "/")
    (hm2 : r2.method = "GET") (hp2 : r2.path = "/") :
    dispatch r1 = dispatch r2 := by
  obtain ⟨m1, p1, hs1, b1⟩ := r1
  obtain ⟨m2, p2, hs2, b2⟩ := r2
  simp only at hm1 hp1 hm2 hp2
  subst hm1 hp1 hm2 hp2
  rfl

/-- Witness for C2: two GET "/" requests differing in headers and body get
identical responses. -/
theorem get_root_deterministic_witness :
    dispatch { method := "GET", path := "/", headers := [], body := [] } =
      dispatch { method := "GET", path := "/", headers := [("X-A", "1")], body := [0] } :=
  get_root_deterministic
    { method := "GET", path := "/", headers := [], body := [] }
    { method := "GET", path := "/", headers := [("X-A", "1")], body := [0] }
    rfl rfl rfl rfl

/-- Closed form of the dispatch function: exact string match on the path,
then a check of the method against the root rule's method set. -/
lemma dispatch_eq (req : Request) :
    dispatch req =
      if req.path = "/" then
        if req.method ∈ ["GET", "HEAD", "OPTIONS"] then
          if req.method = "OPTIONS" ∨ req.method = "HEAD" then
            { status := 200, body := [], contentType := "text/html; charset=utf-8" }
          else okResponse (home ())
        else methodNotAllowedResponse
      else notFoundResponse := by
  obtain ⟨m, p, hs, b⟩ := req
  by_cases hp : p = "/"
  · subst hp
    rfl
  · have hb : (("/" : String) == p) = false := beq_eq_false_iff_ne.mpr (Ne.symm hp)
    simp only [dispatch, registeredRoutes, List.find?, hb]
    simp [hp]

/-- C3 counterexample: routing is not an exact string match on the method —
the concrete request `HEAD /` is served with status 200 although its method
is not `GET`, so it is false that only requests matching `(GET, "/")` are
routed to a 200 response. -/
theorem routing_not_exact_on_method :
    ¬ ∀ req : Request, (dispatch req).status = 200 →
        req.method = "GET" ∧ req.path = "/" := by
  intro h
  have hhead :=
    (h { method := "HEAD", path := "/", headers := [], body := [] } rfl).1
  exact absurd hhead (by decide)

/-- C3 amended: every request whose path is not "/" receives status 404;
routing is exact string match on the path against the single registered rule
"/", whose method set is GET plus the implicitly added HEAD and OPTIONS — a
request to "/" with a method in that set receives 200, any other method on
"/" receives 405. -/
theorem routing_amended (req : Request) :
    (req.path ≠ "/" → (dispatch req).status = 404) ∧
    (req.path = "/" → req.method ∈ ["GET", "HEAD", "OPTIONS"] →
      (dispatch req).status = 200) ∧
    (req.path = "/" → req.method ∉ ["GET", "HEAD", "OPTIONS"] →
      (dispatch req).status = 405) := by
  refine ⟨fun hp => ?_, fun hp hm => ?_, fun hp hm => ?_⟩
  · rw [dispatch_eq, if_neg hp]
    rfl
  · rw [dispatch_eq, if_pos hp, if_pos hm]
    by_cases ho : req.method = "OPTIONS" ∨ req.method = "HEAD"
    · rw [if_pos ho]
    · rw [if_neg ho]
      rfl
  · rw [dispatch_eq, if_pos hp, if_neg hm]
    rfl

/-- Witness for the amended C3: a GET to a missing path gets 404, a GET on
"/" gets 200, and a PUT on "/" gets 405. -/
theorem routing_amended_witness :
    (dispatch { method := "GET", path := "/missing", headers := [], body := [] }).status = 404 ∧
    (dispatch { method := "GET", path := "/", headers := [], body := [] }).status = 200 ∧
    (dispatch { method := "PUT", path := "/", headers := [], body := [] }).status = 405 :=
  ⟨(routing_amended { method := "GET", path := "/missing", headers := [], body := [] }).1
      (by decide),
   (routing_amended { method := "GET", path := "/", headers := [], body := [] }).2.1
      rfl (by decide),
   (routing_amended { method := "PUT", path := "/", headers := [], body := [] }).2.2
      rfl (by decide)⟩

/-- C4: a request to the known path "/" whose method is outside the rule's
method set receives status 405 Method Not Allowed (the framework enforces
method matching), a response rather than a process failure; in particular
`POST /` receives 405. -/
theorem wrong_method_gets_405 (req : Request) (hp : req.path = "/")
    (hm : req.method ∉ ["GET", "HEAD", "OPTIONS"]) :
    (dispatch req).status = 405 := by
  rw [dispatch_eq, if_pos hp, if_neg hm]
  rfl

/-- Witness for C4 at the concrete request `POST /`. -/
theorem wrong_method_gets_405_witness :
    (dispatch { method := "POST", path := "/", headers := [], body := [] }).status = 405 :=
  wrong_method_gets_405 { method := "POST", path := "/", headers := [], body := [] }
    rfl (by decide)

/-- C9: a HEAD request to "/" and an OPTIONS request to "/" both receive
status 200 — not 404 and not 405 — because the rule registered for GET with
no explicit method list implicitly also serves HEAD and OPTIONS on the same
path; so not every request outside `(GET, "/")` is rejected. -/
theorem head_options_served (req : Request) (hp : req.path = "/")
    (hm : req.method = "HEAD" ∨ req.method = "OPTIONS") :
    (dispatch req).status = 200 ∧
    (dispatch req).status ≠ 404 ∧ (dispatch req).status ≠ 405 := by
  have h200 : (dispatch req).status = 200 := by
    rcases hm with hh | ho
    · rw [dispatch_eq, if_pos hp, if_pos (by rw [hh]; decide : req.method ∈ ["GET", "HEAD", "OPTIONS"]), if_pos (Or.inr hh)]
    · rw [dispatch_eq, if_pos hp, if_pos (by rw [ho]; decide : req.method ∈ ["GET", "HEAD", "OPTIONS"]), if_pos (Or.inl ho)]
  refine ⟨h200, ?_, ?_⟩ <;> rw [h200] <;> decide

/-- Witness for C9 at the concrete requests `HEAD /` and `OPTIONS /`. -/
theorem head_options_served_witness :
    ((dispatch { method := "HEAD", path := "/", headers := [], body := [] }).status = 200 ∧
      (dispatch { method := "HEAD", path := "/", headers := [], body := [] }).status ≠ 404 ∧
      (dispatch { method := "HEAD", path := "/", headers := [], body := [] }).status ≠ 405) ∧
    (dispatch { method := "OPTIONS", path := "/", headers := [], body := [] }).status = 200 :=
  ⟨head_options_served { method := "HEAD", path := "/", headers := [], body := [] }
      rfl (Or.inl rfl),
   (head_options_served { method := "OPTIONS", path := "/", headers := [], body := [] }
      rfl (Or.inr rfl)).1⟩

/-- C10: the Content-Type of the successful `GET /` response is
"text/html; charset=utf-8" — the framework serializes a plain string return
value with its default HTML text content type. -/
theorem get_root_content_type (req : Request)
    (hm : req.method = "GET") (hp : req.path = "/") :
    (dispatch req).contentType = "text/html; charset=utf-8" := by
  obtain ⟨m, p, hs, b⟩ := req
  simp only at hm hp
  subst hm hp
  rfl

/-- Witness for C10 at the concrete request `GET /`. -/
theorem get_root_content_type_witness :
    (dispatch { method := "GET", path := "/", headers := [], body := [] }).contentType =
      "text/html; charset=utf-8" :=
  get_root_content_type { method := "GET", path := "/", headers := [], body := [] } rfl rfl

/-- A bind configuration: the host address and port the server listens on. -/
structure BindConfig where
  host : String
  port : Nat
deriving Repr, DecidableEq

/-- From `src/app.py` lines 15-16: when the file is executed as the main
module (started with no arguments), it calls
`app.run(host="0.0.0.0", port=5000)`; this is the bind configuration of that
call. -/
def mainBindConfig : BindConfig :=
  { host := "0.0.0.0", port := 5000 }

/-- Modelled from the spec: the wildcard host address that binds all network
interfaces. -/
def allInterfaces : String := "0.0.0.0"

/-- Modelled from the spec: the running server, viewed as answering an
unbounded stream of incoming requests — one response per request, produced by
the framework dispatch; it keeps serving (never returns) until externally
terminated. -/
def serveForever (_cfg : BindConfig) (incoming : Nat → Request) : Nat → Response :=
  fun n => dispatch (incoming n)

/-- C5: started with no arguments, the process binds to all network
interfaces (host "0.0.0.0") on port 5000, and the resulting server answers
every request of any unbounded incoming stream (it blocks serving until
externally terminated). -/
theorem main_binds_all_interfaces_port_5000 :
    mainBindConfig.host = allInterfaces ∧ mainBindConfig.port = 5000 ∧
    ∀ (incoming : Nat → Request) (n : Nat),
      serveForever mainBindConfig incoming n = dispatch (incoming n) :=
  ⟨rfl, rfl, fun _ _ => rfl⟩

/-- C6: the root handler is total and side-effect-free — it is a pure
function that returns the value "Hello World!" on every invocation, and a
well-formed dispatch of a `GET /` request always yields a response carrying
exactly that value, with no failure. -/
theorem home_total (u : Unit) :
    home u = "Hello World!" ∧
    ∀ req : Request, req.method = "GET" → req.path = "/" →
      (dispatch req).body = utf8 (home u) := by
  refine ⟨rfl, fun req hm hp => ?_⟩
  obtain ⟨m, p, hs, b⟩ := req
  simp only at hm hp
  subst hm hp
  rfl

/-- Witness for C6 at the concrete invocation and the concrete request
`GET /`. -/
theorem home_total_witness :
    home () = "Hello World!" ∧
    (dispatch { method := "GET", path := "/", headers := [], body := [] }).body =
      utf8 (home ()) :=
  ⟨(home_total ()).1,
   (home_total ()).2 { method := "GET", path := "/", headers := [], body := [] } rfl rfl⟩

/-- The server state threaded between requests: `src/app.py` defines no
mutable state that `home` reads or writes, so the state carries no
information. -/
abbrev ServerState : Type := Unit

/-- Modelled from the spec: handling one request-response exchange — the
handler reads no shared mutable state and persists nothing, so the state is
returned unchanged and the response is produced by dispatch alone. -/
def handleOne (s : ServerState) (req : Request) : ServerState × Response :=
  (s, dispatch req)

/-- Modelled from the spec: the server processes a sequence of requests in
order, threading the server state through the exchanges. -/
def runServer (s : ServerState) : List Request → List Response
  | [] => []
  | r :: rs => (handleOne s r).2 :: runServer (handleOne s r).1 rs

/-- C7: the system is stateless across requests — processing any sequence of
requests yields exactly the per-request dispatch responses, and the response
to a request after any history of previously processed requests is the same
as its dispatch response, independent of that history. -/
theorem stateless_across_requests :
    (∀ reqs : List Request, runServer () reqs = reqs.map dispatch) ∧
    ∀ (hist : List Request) (req : Request),
      runServer () (hist ++ [req]) = runServer () hist ++ [dispatch req] := by
  have hmap : ∀ reqs : List Request, runServer () reqs = reqs.map dispatch := by
    intro reqs
    induction reqs with
    | nil => rfl
    | cons r rs ih => simp [runServer, handleOne, ih]
  refine ⟨hmap, fun hist req => ?_⟩
  rw [hmap, hmap, List.map_append, List.map_singleton]

/-- Startup failures distinguished by the spec's error taxonomy. -/
inductive StartError where
  | bindError
  | startupError
deriving Repr, DecidableEq

/-- Modelled from the spec: the environment the process starts in — whether
the configured port is already in use, whether the process has permission to
bind it, and whether the configured host address is valid. -/
structure StartupEnv where
  portInUse : Bool
  bindPermitted : Bool
  addressValid : Bool
deriving Repr, DecidableEq

/-- Modelled from the spec: the server `start()` operation — an invalid
configured address fails with a `StartupError`; a port already in use, or a
missing permission to bind, fails with a `BindError`; otherwise the server
starts, listening on the given bind configuration. -/
def start (cfg : BindConfig) (env : StartupEnv) : Except StartError BindConfig :=
  if env.addressValid = false then .error .startupError
  else if env.portInUse = true ∨ env.bindPermitted = false then .error .bindError
  else .ok cfg

/-- Modelled from the spec: the process exit status after startup — zero on a
clean start, non-zero when startup fails. -/
def exitCode (r : Except StartError BindConfig) : Nat :=
  match r with
  | .error _ => 1
  | .ok _ => 0

/-- C8: with a valid configured address, if the port is already in use or the
process lacks permission to bind, `start` fails with a `BindError` and the
process exit status is non-zero; if the configured address is invalid,
`start` fails with a `StartupError` (also exiting non-zero). -/
theorem start_failure_modes (cfg : BindConfig) (env : StartupEnv) :
    (env.addressValid = true →
      (env.portInUse = true ∨ env.bindPermitted = false) →
      start cfg env = .error .bindError ∧ exitCode (start cfg env) ≠ 0) ∧
    (env.addressValid = false →
      start cfg env = .error .startupError ∧ exitCode (start cfg env) ≠ 0) := by
  obtain ⟨pu, bp, av⟩ := env
  cases pu <;> cases bp <;> cases av <;>
    simp [start, exitCode]

/-- Witness for C8: starting the app's configuration with the port taken
fails with a BindError and non-zero exit; starting with an invalid address
fails with a StartupError and non-zero exit. -/
theorem start_failure_modes_witness :
    (start mainBindConfig
        { portInUse := true, bindPermitted := true, addressValid := true } =
          .error .bindError ∧
      exitCode (start mainBindConfig
        { portInUse := true, bindPermitted := true, addressValid := true }) ≠ 0) ∧
    (start mainBindConfig
        { portInUse := false, bindPermitted := true, addressValid := false } =
          .error .startupError ∧
      exitCode (start mainBindConfig
        { portInUse := false, bindPermitted := true, addressValid := false }) ≠ 0) :=
  ⟨(start_failure_modes mainBindConfig
      { portInUse := true, bindPermitted := true, addressValid := true }).1
        rfl (Or.inl rfl),
   (start_failure_modes mainBindConfig
      { portInUse := false, bindPermitted := true, addressValid := false }).2 rfl⟩
